import Mathlib

set_option linter.unusedVariables false

/-
Shallow embedding of the PulseSensor_CYD firmware's core state logic.

The repository holds two sketch variants:
* `src/PulseSensor_CYD.ino` — names below carry an `ino` marker;
* `src/unnamed/part_000`    — names below carry a `p0` marker.

Pure numeric state transitions are embedded directly; wall-clock timers
(`millis()` comparisons against a stored timestamp) are abstracted as a
Bool parameter saying whether the guarded interval has elapsed, or as an
explicit `now : Nat` argument where the claim speaks about elapsed time.
Machine `int`s are modelled as `Int` (no arithmetic here approaches the
32-bit bounds) and `unsigned long` timestamps as `Nat`.
-/

-- =========== Shared constants (identical in both variants) ===========

def SCREEN_WIDTH : Nat := 320

def WAVEFORM_TOP : Int := 80
def WAVEFORM_HEIGHT : Int := 100
def WAVEFORM_BOTTOM : Int := WAVEFORM_TOP + WAVEFORM_HEIGHT

def NO_BEAT_TIMEOUT : Nat := 3000

def LED_FADE_SPEED : Int := 4
def LED_MAX_BRIGHTNESS : Int := 255

-- =========== Auto-scaling envelope ===========

/-- The auto-scaling envelope: the global pair `minSignal` / `maxSignal`. -/
structure Env where
  minSignal : Int
  maxSignal : Int
deriving DecidableEq

/-- Initial envelope, from the globals `int minSignal = 4095; int maxSignal = 0;`
(both variants). -/
def initialEnv : Env := { minSignal := 4095, maxSignal := 0 }

/-- `updateMinMax()` of part_000 (lines 381-393): an optional decay of both
bounds toward the center 2048 (guarded by `now - lastDecay > 100`, abstracted
as `decayFires`), followed by widening to cover the current sample.
`min`/`max` are the Arduino macros. -/
def updateMinMax (e : Env) (decayFires : Bool) (currentSignal : Int) : Env :=
  let e1 : Env :=
    if decayFires then
      { minSignal := min (e.minSignal + 5) 2048, maxSignal := max (e.maxSignal - 5) 2048 }
    else e
  { minSignal := min e1.minSignal currentSignal, maxSignal := max e1.maxSignal currentSignal }

/-- The envelope update inlined in `loop()` of PulseSensor_CYD.ino
(lines 196-204): widen to the current sample, drift both bounds one unit
toward the center, then clamp so `minSignal ≤ 1800` and `maxSignal ≥ 2200`. -/
def loopEnvUpdate (e : Env) (currentSignal : Int) : Env :=
  let mn0 : Int := if currentSignal < e.minSignal then currentSignal else e.minSignal
  let mx0 : Int := if currentSignal > e.maxSignal then currentSignal else e.maxSignal
  let mn1 : Int := mn0 + 1
  let mx1 : Int := mx0 - 1
  { minSignal := if mn1 > 1800 then 1800 else mn1
    maxSignal := if mx1 < 2200 then 2200 else mx1 }

/-- The envelope part of `resetDisplay()` of PulseSensor_CYD.ino
(lines 350-352): `minSignal = 1800; maxSignal = 2200;`. -/
def resetDisplay_env : Env := { minSignal := 1800, maxSignal := 2200 }

/-- The scaling range computed by `drawWaveformColumn()` of part_000
(line 359): `int range = max(maxSignal - minSignal, 100);`. -/
def p0ScaleRange (e : Env) : Int := max (e.maxSignal - e.minSignal) 100

/-- One mutation of the envelope: a part_000 `updateMinMax` step, an
ino `loop()` widen-and-decay step, or the ino `resetDisplay()` reset. -/
inductive EnvOp where
  | p0Update : Bool → Int → EnvOp
  | inoUpdate : Int → EnvOp
  | inoReset : EnvOp

def applyEnvOp (e : Env) : EnvOp → Env
  | EnvOp.p0Update d s => updateMinMax e d s
  | EnvOp.inoUpdate s => loopEnvUpdate e s
  | EnvOp.inoReset => resetDisplay_env

-- =========== Waveform renderer (ino variant) ===========

/-- Arduino `map()`: `(x - in_min) * (out_max - out_min) / (in_max - in_min)
+ out_min`, with C `long` division (truncation toward zero). -/
def mapArduino (x inMin inMax outMin outMax : Int) : Int :=
  Int.tdiv ((x - inMin) * (outMax - outMin)) (inMax - inMin) + outMin

/-- Arduino `constrain()`. -/
def constrain (x lo hi : Int) : Int :=
  if x < lo then lo else if x > hi then hi else x

/-- The y coordinates computed by `drawWaveformColumn()` of
PulseSensor_CYD.ino (lines 296-303): a floored `range` local is computed
(and shadowed, mirroring the C reassignment) but the two `map()` calls
divide by `maxSignal - minSignal` directly. -/
def drawWaveformColumn_ys (e : Env) (prevSample currentSample : Int) : Int × Int :=
  let range : Int := e.maxSignal - e.minSignal
  let range : Int := if range < 100 then 100 else range
  let y1 : Int :=
    mapArduino prevSample e.minSignal e.maxSignal (WAVEFORM_BOTTOM - 5) (WAVEFORM_TOP + 5)
  let y2 : Int :=
    mapArduino currentSample e.minSignal e.maxSignal (WAVEFORM_BOTTOM - 5) (WAVEFORM_TOP + 5)
  (constrain y1 WAVEFORM_TOP WAVEFORM_BOTTOM, constrain y2 WAVEFORM_TOP WAVEFORM_BOTTOM)

-- =========== Waveform write cursor ===========

/-- Cursor advance in part_000's `loop()` (lines 196-199):
`waveformX++; if (waveformX >= SCREEN_WIDTH) waveformX = 0;`.
(PulseSensor_CYD.ino line 210 writes the same step as
`waveformIndex = (waveformIndex + 1) % SCREEN_WIDTH`.) -/
def advanceX (x : Nat) : Nat :=
  if x + 1 ≥ SCREEN_WIDTH then 0 else x + 1

/-- Cursor position after `n` render ticks starting from `x`; the index
written on tick `n` is `cursorAfter x n`, since each tick stores the sample
at the cursor and then advances it. -/
def cursorAfter (x : Nat) : Nat → Nat
  | 0 => x
  | n + 1 => advanceX (cursorAfter x n)

-- =========== Display field caches ===========

/-- The cache guard of `drawBPM()` in PulseSensor_CYD.ino (lines 240-241):
`if (bpm == lastDisplayedBPM) return; lastDisplayedBPM = bpm;`.
Returns (whether a redraw happens, the cache afterwards). -/
def drawBPM_ino_cache (lastDisplayedBPM bpm : Int) : Bool × Int :=
  if bpm = lastDisplayedBPM then (false, lastDisplayedBPM) else (true, bpm)

/-- The cache guard of `drawSignal()` in PulseSensor_CYD.ino (lines 253-254). -/
def drawSignal_ino_cache (lastDisplayedSignal signal : Int) : Bool × Int :=
  if signal = lastDisplayedSignal then (false, lastDisplayedSignal) else (true, signal)

/-- The cache guard of `drawIBI()` in PulseSensor_CYD.ino (lines 262-263). -/
def drawIBI_ino_cache (lastDisplayedIBI ibi : Int) : Bool × Int :=
  if ibi = lastDisplayedIBI then (false, lastDisplayedIBI) else (true, ibi)

/-- The BPM cache check in part_000's `loop()` beat branch (lines 166-169):
`if (currentBPM != lastDisplayedBPM) { drawBPM(currentBPM); lastDisplayedBPM = currentBPM; }`. -/
def p0LoopBPMCache (lastDisplayedBPM currentBPM : Int) : Bool × Int :=
  if currentBPM ≠ lastDisplayedBPM then (true, currentBPM) else (false, lastDisplayedBPM)

/-- The IBI cache check in part_000's `loop()` beat branch (lines 170-173). -/
def p0LoopIBICache (lastDisplayedIBI currentIBI : Int) : Bool × Int :=
  if currentIBI ≠ lastDisplayedIBI then (true, currentIBI) else (false, lastDisplayedIBI)

/-- The signal-field part of a render tick in part_000's `loop()`
(lines 196-206): advance the cursor, then redraw the signal readout only
when the advanced cursor is a multiple of 10 and the sample moved by more
than 30 units. Returns (new cursor, whether a redraw happened, the
`lastDisplayedSignal` cache afterwards). -/
def p0RenderTickSignal (x : Nat) (lastDisplayedSignal currentSignal : Int) :
    Nat × Bool × Int :=
  let x1 := advanceX x
  if x1 % 10 = 0 then
    if (currentSignal - lastDisplayedSignal).natAbs > 30 then (x1, true, currentSignal)
    else (x1, false, lastDisplayedSignal)
  else (x1, false, lastDisplayedSignal)

-- =========== BPM display states ===========

/-- What the BPM field shows: a number, or the invalid-value dashes. -/
inductive BPMDisplay where
  | number : Int → BPMDisplay
  | dashes : BPMDisplay
deriving DecidableEq

/-- `drawBPM()` of part_000 (lines 296-309): the number inside the
plausibility band `bpm > 30 && bpm < 220`, dashes outside it. -/
def drawBPM_p0 (bpm : Int) : BPMDisplay :=
  if bpm > 30 ∧ bpm < 220 then BPMDisplay.number bpm else BPMDisplay.dashes

/-- `drawBPM()` of PulseSensor_CYD.ino (lines 239-250): early-return when
the value is cached, otherwise the number is drawn for every `bpm`. -/
def drawBPM_ino (lastDisplayedBPM bpm : Int) : Option BPMDisplay :=
  if bpm = lastDisplayedBPM then none else some (BPMDisplay.number bpm)

-- =========== Presence / no-finger timeout ===========

/-- The slice of part_000's globals touched by `checkFingerTimeout()`. -/
structure P0Presence where
  fingerPresent : Bool
  lastBeatTime : Nat
  currentBPM : Int
  currentIBI : Int
  lastDisplayedBPM : Int
  lastDisplayedIBI : Int
deriving DecidableEq

/-- `checkFingerTimeout()` of part_000 (lines 251-270). -/
def checkFingerTimeout (p : P0Presence) (now : Nat) : P0Presence :=
  if p.fingerPresent ∧ now - p.lastBeatTime > NO_BEAT_TIMEOUT then
    let p1 : P0Presence := { p with fingerPresent := false, currentBPM := 0, currentIBI := 0 }
    let p2 : P0Presence :=
      if p1.lastDisplayedBPM ≠ 0 then { p1 with lastDisplayedBPM := 0 } else p1
    if p2.lastDisplayedIBI ≠ 0 then { p2 with lastDisplayedIBI := 0 } else p2
  else p

/-- The slice of PulseSensor_CYD.ino's globals touched by
`checkFingerTimeout()` / `resetDisplay()`. -/
structure InoPresence where
  fingerPresent : Bool
  lastBeatTime : Nat
  lastDisplayedBPM : Int
  lastDisplayedSignal : Int
  lastDisplayedIBI : Int
  env : Env
deriving DecidableEq

/-- `checkFingerTimeout()` of PulseSensor_CYD.ino (lines 326-331), with the
state effect of the `resetDisplay()` it calls (lines 333-355): displayed
values forced to -1 and the envelope reset. -/
def checkFingerTimeout_ino (q : InoPresence) (now : Nat) : InoPresence :=
  if q.fingerPresent ∧ now - q.lastBeatTime > NO_BEAT_TIMEOUT then
    { q with fingerPresent := false, lastDisplayedBPM := -1, lastDisplayedSignal := -1,
             lastDisplayedIBI := -1, env := resetDisplay_env }
  else q

-- =========== LED animator ===========

/-- `flashLED()` of part_000 (lines 222-225): `ledBrightness = LED_MAX_BRIGHTNESS`.
(The beat branch of PulseSensor_CYD.ino's `loop()`, line 176, likewise sets
`ledFadeValue = 255`.) -/
def flashLED : Int := LED_MAX_BRIGHTNESS

/-- `updateLED()` of part_000 (lines 227-239); `timerFires` abstracts
`now - lastLedUpdate >= 10`. -/
def updateLED (ledBrightness : Int) (timerFires : Bool) : Int :=
  if timerFires then
    if ledBrightness > 0 then
      if ledBrightness - LED_FADE_SPEED < 0 then 0 else ledBrightness - LED_FADE_SPEED
    else ledBrightness
  else ledBrightness

/-- `updateRgbLed()` of PulseSensor_CYD.ino (lines 315-324); `timerFires`
abstracts `millis() - lastLedUpdate > 10`. -/
def updateRgbLed (ledFadeValue : Int) (timerFires : Bool) : Int :=
  if ledFadeValue > 0 then
    if timerFires then
      if ledFadeValue - 8 < 0 then 0 else ledFadeValue - 8
    else ledFadeValue
  else ledFadeValue

-- =========== Serial status records ===========

/-- The beat status line printed by part_000's `loop()` (line 176):
`Serial.printf("%d,%d,%d,1\n", currentSignal, currentBPM, currentIBI)`,
as the line-oriented record without its terminating newline. -/
def p0BeatLine (signal bpm ibi : Int) : String :=
  toString signal ++ "," ++ toString bpm ++ "," ++ toString ibi ++ ",1"

/-- Status lines emitted by one iteration of part_000's `loop()`: one
record inside the `sawStartOfBeat()` branch, none otherwise. -/
def p0LoopSerial (sawBeat : Bool) (signal bpm ibi : Int) : List String :=
  if sawBeat then [p0BeatLine signal bpm ibi] else []

/-- The beat line printed by PulseSensor_CYD.ino's `loop()` (lines 183-186):
`Serial.print("BPM: "); ... Serial.println(currentIBI);`. -/
def inoBeatLine (bpm ibi : Int) : String :=
  "BPM: " ++ toString bpm ++ " | IBI: " ++ toString ibi

/-- Status lines emitted by one iteration of PulseSensor_CYD.ino's `loop()`. -/
def inoLoopSerial (sawBeat : Bool) (bpm ibi : Int) : List String :=
  if sawBeat then [inoBeatLine bpm ibi] else []

/-- The status-record shape as the spec's interface section words it:
`signal,bpm,ibi,beatFlag` with beatFlag 1 on a beat. Stated separately so
the emitted line can be compared against the documented shape. -/
def spec_statusRecord (signal bpm ibi : Int) : String :=
  toString signal ++ "," ++ toString bpm ++ "," ++ toString ibi ++ "," ++ toString (1 : Int)

-- =========== Helper lemmas ===========

lemma updateMinMax_min_le_max (e : Env) (d : Bool) (s : Int) :
    (updateMinMax e d s).minSignal ≤ (updateMinMax e d s).maxSignal := by
  simp only [updateMinMax]
  exact le_trans (min_le_right _ _) (le_max_right _ _)

lemma loopEnvUpdate_min_le (e : Env) (s : Int) :
    (loopEnvUpdate e s).minSignal ≤ 1800 := by
  simp only [loopEnvUpdate]
  split_ifs <;> omega

lemma loopEnvUpdate_le_max (e : Env) (s : Int) :
    2200 ≤ (loopEnvUpdate e s).maxSignal := by
  simp only [loopEnvUpdate]
  split_ifs <;> omega

lemma applyEnvOp_min_le_max (e : Env) (op : EnvOp) :
    (applyEnvOp e op).minSignal ≤ (applyEnvOp e op).maxSignal := by
  cases op with
  | p0Update d s => exact updateMinMax_min_le_max e d s
  | inoUpdate s =>
      exact le_trans (loopEnvUpdate_min_le e s) (le_trans (by norm_num) (loopEnvUpdate_le_max e s))
  | inoReset => simp [applyEnvOp, resetDisplay_env]

lemma foldl_applyEnvOp_min_le_max (ops : List EnvOp) :
    ∀ e : Env, e.minSignal ≤ e.maxSignal →
      (List.foldl applyEnvOp e ops).minSignal ≤ (List.foldl applyEnvOp e ops).maxSignal := by
  induction ops with
  | nil => intro e h; simpa using h
  | cons op ops ih => intro e h; exact ih (applyEnvOp e op) (applyEnvOp_min_le_max e op)

lemma p0ScaleRange_ge (e : Env) : 100 ≤ p0ScaleRange e := le_max_right _ _

-- =========== Claim theorems ===========

/-- Claim C1, counterexample: part_000's `updateMinMax` does not keep the
envelope span at or above 100. From the firmware's initial envelope
(4095, 0), a single update with the centered sample 2048 collapses the
envelope to (2048, 2048), span 0. -/
theorem p0_envelope_span_counterexample :
    updateMinMax initialEnv false 2048 = { minSignal := 2048, maxSignal := 2048 } ∧
    ¬ (100 ≤ (updateMinMax initialEnv false 2048).maxSignal -
        (updateMinMax initialEnv false 2048).minSignal) := by
  constructor <;> decide

/-- Claim C1, amended: the ino variant's envelope update does guarantee
span ≥ 100 (indeed min ≤ 1800 and max ≥ 2200, so span ≥ 400) after every
update; in part_000 the envelope span itself can fall below 100, and the
100-unit floor is applied at render time instead: the scaling range
`max(maxSignal - minSignal, 100)` used by `drawWaveformColumn` is at
least 100 for every envelope, in particular after every `updateMinMax`. -/
theorem envelope_span_floor (e : Env) (d : Bool) (s : Int) :
    100 ≤ (loopEnvUpdate e s).maxSignal - (loopEnvUpdate e s).minSignal ∧
    100 ≤ p0ScaleRange (updateMinMax e d s) ∧
    (∀ e2 : Env, 100 ≤ p0ScaleRange e2) := by
  refine ⟨?_, p0ScaleRange_ge _, fun e2 => p0ScaleRange_ge e2⟩
  have h1 := loopEnvUpdate_min_le e s
  have h2 := loopEnvUpdate_le_max e s
  omega

/-- Claim C5: the envelope satisfies `minSignal ≤ maxSignal` after every
mutating operation — part_000's `updateMinMax` (widening plus periodic
decay), the ino loop's widen-drift-clamp update, and the ino reset — and
hence after every nonempty sequence of such operations from any starting
envelope and any samples and decay-tick times. -/
theorem envelope_min_le_max (e : Env) (op : EnvOp) (ops : List EnvOp) :
    (applyEnvOp e op).minSignal ≤ (applyEnvOp e op).maxSignal ∧
    (List.foldl applyEnvOp e (op :: ops)).minSignal ≤
      (List.foldl applyEnvOp e (op :: ops)).maxSignal := by
  refine ⟨applyEnvOp_min_le_max e op, ?_⟩
  have : List.foldl applyEnvOp e (op :: ops) = List.foldl applyEnvOp (applyEnvOp e op) ops := rfl
  rw [this]
  exact foldl_applyEnvOp_min_le_max ops (applyEnvOp e op) (applyEnvOp_min_le_max e op)

/-- Claim C9: in `drawWaveformColumn` of PulseSensor_CYD.ino the floored
`range` local is not used — the computed y pair equals what the raw
`map(.., minSignal, maxSignal, ..)` calls give, with the divisor
`maxSignal - minSignal` — and after every envelope update in `loop()`
the envelope has `minSignal ≤ 1800` and `maxSignal ≥ 2200`, so that
divisor is at least 400 and never zero. -/
theorem waveform_divisor_nonzero (e : Env) (s prevSample currentSample : Int) :
    (loopEnvUpdate e s).minSignal ≤ 1800 ∧
    2200 ≤ (loopEnvUpdate e s).maxSignal ∧
    400 ≤ (loopEnvUpdate e s).maxSignal - (loopEnvUpdate e s).minSignal ∧
    (loopEnvUpdate e s).maxSignal - (loopEnvUpdate e s).minSignal ≠ 0 ∧
    drawWaveformColumn_ys (loopEnvUpdate e s) prevSample currentSample =
      (constrain (mapArduino prevSample (loopEnvUpdate e s).minSignal
          (loopEnvUpdate e s).maxSignal (WAVEFORM_BOTTOM - 5) (WAVEFORM_TOP + 5))
          WAVEFORM_TOP WAVEFORM_BOTTOM,
       constrain (mapArduino currentSample (loopEnvUpdate e s).minSignal
          (loopEnvUpdate e s).maxSignal (WAVEFORM_BOTTOM - 5) (WAVEFORM_TOP + 5))
          WAVEFORM_TOP WAVEFORM_BOTTOM) := by
  have h1 := loopEnvUpdate_min_le e s
  have h2 := loopEnvUpdate_le_max e s
  refine ⟨h1, h2, by omega, by omega, rfl⟩

lemma advanceX_lt (x : Nat) : advanceX x < SCREEN_WIDTH := by
  simp only [advanceX, SCREEN_WIDTH]
  split <;> omega

lemma advanceX_eq_mod (x : Nat) (hx : x < SCREEN_WIDTH) :
    advanceX x = (x + 1) % SCREEN_WIDTH := by
  simp only [advanceX, SCREEN_WIDTH] at *
  split <;> omega

lemma cursorAfter_lt (x : Nat) (hx : x < SCREEN_WIDTH) (n : Nat) :
    cursorAfter x n < SCREEN_WIDTH := by
  cases n with
  | zero => simpa [cursorAfter] using hx
  | succ n => exact advanceX_lt _

lemma cursorAfter_eq_mod (x : Nat) (hx : x < SCREEN_WIDTH) (n : Nat) :
    cursorAfter x n = (x + n) % SCREEN_WIDTH := by
  induction n with
  | zero =>
      simpa [cursorAfter] using (Nat.mod_eq_of_lt hx).symm
  | succ n ih =>
      have hlt : cursorAfter x n < SCREEN_WIDTH := cursorAfter_lt x hx n
      rw [cursorAfter, advanceX_eq_mod _ hlt, ih]
      simp only [SCREEN_WIDTH]
      omega

/-- Claim C6: starting from any in-range cursor, the part_000 waveform write
cursor (which PulseSensor_CYD.ino advances by the same `(x + 1) % 320` step)
advances by exactly one position per render tick, wrapping to zero at the
screen width 320; it always stays in `[0, 320)`, and the write indices of
any two ticks less than a full wrap apart are distinct, so each buffer index
is written at most once before the cursor wraps back to it. -/
theorem waveform_cursor_advance (x n i j : Nat) (hx : x < SCREEN_WIDTH)
    (hij : i < j) (hwin : j - i < SCREEN_WIDTH) :
    cursorAfter x (n + 1) = (cursorAfter x n + 1) % SCREEN_WIDTH ∧
    cursorAfter x n < SCREEN_WIDTH ∧
    cursorAfter x n = (x + n) % SCREEN_WIDTH ∧
    cursorAfter x i ≠ cursorAfter x j := by
  refine ⟨?_, cursorAfter_lt x hx n, cursorAfter_eq_mod x hx n, ?_⟩
  · rw [cursorAfter, advanceX_eq_mod _ (cursorAfter_lt x hx n)]
  · rw [cursorAfter_eq_mod x hx i, cursorAfter_eq_mod x hx j]
    simp only [SCREEN_WIDTH] at hx hij hwin ⊢
    omega

/-- Claim C6, witness: the cursor facts evaluated at cursor 5, after 3 ticks,
for the tick pair (2, 9). -/
theorem waveform_cursor_advance_witness :
    5 < SCREEN_WIDTH ∧ 2 < 9 ∧ 9 - 2 < SCREEN_WIDTH ∧
    (cursorAfter 5 4 = (cursorAfter 5 3 + 1) % SCREEN_WIDTH ∧
     cursorAfter 5 3 < SCREEN_WIDTH ∧
     cursorAfter 5 3 = (5 + 3) % SCREEN_WIDTH ∧
     cursorAfter 5 2 ≠ cursorAfter 5 9) :=
  ⟨by decide, by decide, by decide,
   waveform_cursor_advance 5 3 2 9 (by decide) (by decide) (by decide)⟩

lemma updateLED_le (b : Int) (f : Bool) : updateLED b f ≤ b := by
  simp only [updateLED, LED_FADE_SPEED]
  split_ifs <;> omega

lemma foldl_updateLED_le (fs : List Bool) : ∀ b : Int, List.foldl updateLED b fs ≤ b := by
  induction fs with
  | nil => intro b; simp
  | cons f fs ih => intro b; exact le_trans (ih (updateLED b f)) (updateLED_le b f)

/-- Claim C4: LED brightness is non-increasing across any run of ticks with
no intervening beat — one part_000 `updateLED` step never increases the
brightness (likewise `updateRgbLed` of PulseSensor_CYD.ino), a decay step
is floored at zero, and any sequence of decay ticks leaves the brightness
at most where it started — while a beat (`flashLED`, and the ino beat
branch alike) sets the brightness to the maximum 255. -/
theorem led_fade_monotone (b : Int) (fires : Bool) (fs : List Bool) :
    updateLED b fires ≤ b ∧
    updateRgbLed b fires ≤ b ∧
    (0 ≤ b → 0 ≤ updateLED b fires) ∧
    List.foldl updateLED b fs ≤ b ∧
    flashLED = 255 := by
  refine ⟨updateLED_le b fires, ?_, ?_, foldl_updateLED_le fs b, rfl⟩
  · simp only [updateRgbLed]
    split_ifs <;> omega
  · intro hb
    simp only [updateLED]
    split_ifs <;> omega

/-- Claim C4, witness: the fade facts evaluated at brightness 10, a firing
decay timer, and two further decay ticks. -/
theorem led_fade_monotone_witness :
    (0 : Int) ≤ 10 ∧
    (updateLED 10 true ≤ 10 ∧ updateRgbLed 10 true ≤ 10 ∧ 0 ≤ updateLED 10 true ∧
     List.foldl updateLED 10 [true, true] ≤ 10 ∧ flashLED = 255) :=
  ⟨by decide,
   (led_fade_monotone 10 true [true, true]).1,
   (led_fade_monotone 10 true [true, true]).2.1,
   (led_fade_monotone 10 true [true, true]).2.2.1 (by decide),
   (led_fade_monotone 10 true [true, true]).2.2.2.1,
   (led_fade_monotone 10 true [true, true]).2.2.2.2⟩

lemma checkFingerTimeout_not_present (p : P0Presence) (now : Nat)
    (h : p.fingerPresent = false) : checkFingerTimeout p now = p := by
  simp [checkFingerTimeout, h]

lemma checkFingerTimeout_ino_not_present (q : InoPresence) (now : Nat)
    (h : q.fingerPresent = false) : checkFingerTimeout_ino q now = q := by
  simp [checkFingerTimeout_ino, h]

lemma checkFingerTimeout_fired (p : P0Presence) (now : Nat)
    (hp : p.fingerPresent = true) (ht : now - p.lastBeatTime > NO_BEAT_TIMEOUT) :
    (checkFingerTimeout p now).fingerPresent = false ∧
    (checkFingerTimeout p now).currentBPM = 0 ∧
    (checkFingerTimeout p now).currentIBI = 0 ∧
    (checkFingerTimeout p now).lastDisplayedBPM = 0 ∧
    (checkFingerTimeout p now).lastDisplayedIBI = 0 := by
  simp only [checkFingerTimeout, hp, ht, true_and, if_pos]
  split_ifs <;> simp_all

/-- Claim C3: in both variants, when the finger is present and more than the
3000 ms `NO_BEAT_TIMEOUT` has elapsed since the last beat, the timeout check
transitions presence to no-input and resets the displayed BPM and IBI fields
(to 0 in part_000, to the -1 "never drawn" sentinel plus envelope reset in
PulseSensor_CYD.ino); the transition happens exactly once — a further
timeout check at any later tick leaves the state unchanged. -/
theorem finger_timeout_once (p : P0Presence) (q : InoPresence) (now now2 : Nat)
    (hp : p.fingerPresent = true) (hpt : now - p.lastBeatTime > NO_BEAT_TIMEOUT)
    (hq : q.fingerPresent = true) (hqt : now - q.lastBeatTime > NO_BEAT_TIMEOUT) :
    ((checkFingerTimeout p now).fingerPresent = false ∧
     (checkFingerTimeout p now).currentBPM = 0 ∧
     (checkFingerTimeout p now).currentIBI = 0 ∧
     (checkFingerTimeout p now).lastDisplayedBPM = 0 ∧
     (checkFingerTimeout p now).lastDisplayedIBI = 0 ∧
     checkFingerTimeout (checkFingerTimeout p now) now2 = checkFingerTimeout p now) ∧
    ((checkFingerTimeout_ino q now).fingerPresent = false ∧
     (checkFingerTimeout_ino q now).lastDisplayedBPM = -1 ∧
     (checkFingerTimeout_ino q now).lastDisplayedIBI = -1 ∧
     (checkFingerTimeout_ino q now).env = resetDisplay_env ∧
     checkFingerTimeout_ino (checkFingerTimeout_ino q now) now2 =
       checkFingerTimeout_ino q now) := by
  obtain ⟨h1, h2, h3, h4, h5⟩ := checkFingerTimeout_fired p now hp hpt
  have hqall : (checkFingerTimeout_ino q now).fingerPresent = false ∧
      (checkFingerTimeout_ino q now).lastDisplayedBPM = -1 ∧
      (checkFingerTimeout_ino q now).lastDisplayedIBI = -1 ∧
      (checkFingerTimeout_ino q now).env = resetDisplay_env := by
    simp [checkFingerTimeout_ino, hq, hqt]
  refine ⟨⟨h1, h2, h3, h4, h5, checkFingerTimeout_not_present _ now2 h1⟩,
          ⟨hqall.1, hqall.2.1, hqall.2.2.1, hqall.2.2.2,
           checkFingerTimeout_ino_not_present _ now2 hqall.1⟩⟩

/-- Claim C3, witness: finger present with last beat at t = 0, checked at
t = 3001 (elapsed 3001 ms > 3000) and again at t = 60000. -/
theorem finger_timeout_once_witness :
    (P0Presence.mk true 0 72 833 72 833).fingerPresent = true ∧
    3001 - (P0Presence.mk true 0 72 833 72 833).lastBeatTime > NO_BEAT_TIMEOUT ∧
    ((checkFingerTimeout (P0Presence.mk true 0 72 833 72 833) 3001).fingerPresent = false ∧
     (checkFingerTimeout (P0Presence.mk true 0 72 833 72 833) 3001).lastDisplayedBPM = 0 ∧
     checkFingerTimeout (checkFingerTimeout (P0Presence.mk true 0 72 833 72 833) 3001) 60000 =
       checkFingerTimeout (P0Presence.mk true 0 72 833 72 833) 3001) ∧
    ((checkFingerTimeout_ino (InoPresence.mk true 0 72 2048 833 initialEnv) 3001).fingerPresent
       = false ∧
     checkFingerTimeout_ino
         (checkFingerTimeout_ino (InoPresence.mk true 0 72 2048 833 initialEnv) 3001) 60000 =
       checkFingerTimeout_ino (InoPresence.mk true 0 72 2048 833 initialEnv) 3001) :=
  have h := finger_timeout_once (P0Presence.mk true 0 72 833 72 833)
    (InoPresence.mk true 0 72 2048 833 initialEnv) 3001 60000
    (by decide) (by decide) (by decide) (by decide)
  ⟨by decide, by decide,
   ⟨h.1.1, h.1.2.2.2.1, h.1.2.2.2.2.2⟩,
   ⟨h.2.1, h.2.2.2.2.2⟩⟩

/-- Claim C7, counterexample: `drawBPM()` of PulseSensor_CYD.ino has no
plausibility band — at the implausible value 250 (≥ 220, and differing from
the cached value -1, the startup cache) it draws the number 250, not the
invalid-value dashes. -/
theorem ino_drawBPM_band_counterexample :
    (220 : Int) ≤ 250 ∧
    drawBPM_ino (-1) 250 = some (BPMDisplay.number 250) ∧
    drawBPM_ino (-1) 250 ≠ some BPMDisplay.dashes := by
  decide

/-- Claim C7, amended: in part_000, `drawBPM` displays the dashes "--" for
every bpm outside the plausible band (bpm ≤ 30 or bpm ≥ 220) and the number
itself strictly inside the band, with no error in either case; in
PulseSensor_CYD.ino, `drawBPM` draws the numeric value for every bpm that
differs from the cached one, with no plausibility band. -/
theorem drawBPM_band (bpm last : Int) :
    (bpm ≤ 30 ∨ 220 ≤ bpm → drawBPM_p0 bpm = BPMDisplay.dashes) ∧
    (30 < bpm → bpm < 220 → drawBPM_p0 bpm = BPMDisplay.number bpm) ∧
    (bpm ≠ last → drawBPM_ino last bpm = some (BPMDisplay.number bpm)) ∧
    (bpm = last → drawBPM_ino last bpm = none) := by
  refine ⟨?_, ?_, ?_, ?_⟩
  · intro h
    simp only [drawBPM_p0]
    rw [if_neg]
    omega
  · intro h1 h2
    simp only [drawBPM_p0]
    rw [if_pos ⟨h1, h2⟩]
  · intro h
    simp [drawBPM_ino, h]
  · intro h
    simp [drawBPM_ino, h]

/-- Claim C7, witness: the dashes at the implausible 250 and 0, the number
at the plausible 72, and the ino variant's unchecked draw of 250. -/
theorem drawBPM_band_witness :
    ((250 : Int) ≤ 30 ∨ (220 : Int) ≤ 250) ∧ drawBPM_p0 250 = BPMDisplay.dashes ∧
    ((0 : Int) ≤ 30 ∨ (220 : Int) ≤ 0) ∧ drawBPM_p0 0 = BPMDisplay.dashes ∧
    (30 : Int) < 72 ∧ (72 : Int) < 220 ∧ drawBPM_p0 72 = BPMDisplay.number 72 ∧
    (250 : Int) ≠ -1 ∧ drawBPM_ino (-1) 250 = some (BPMDisplay.number 250) :=
  ⟨by decide, (drawBPM_band 250 (-1)).1 (by decide),
   by decide, (drawBPM_band 0 (-1)).1 (by decide),
   by decide, by decide, (drawBPM_band 72 0).2.1 (by decide) (by decide),
   by decide, (drawBPM_band 250 (-1)).2.2.1 (by decide)⟩

/-- Claim C10: in part_000's render tick the signal readout is eligible for
redraw only when the advanced cursor position is a multiple of 10 — on every
other render tick no redraw happens and the displayed signal stays unchanged,
whatever the difference between the sample and the last displayed value —
and any tick that does redraw has an advanced cursor that is a multiple
of 10 and a sample differing by more than 30 units. -/
theorem signal_redraw_gate (x : Nat) (last s : Int) :
    (advanceX x % 10 ≠ 0 → p0RenderTickSignal x last s = (advanceX x, false, last)) ∧
    ((p0RenderTickSignal x last s).2.1 = true →
      advanceX x % 10 = 0 ∧ (s - last).natAbs > 30) := by
  constructor
  · intro h
    simp [p0RenderTickSignal, h]
  · intro h
    simp only [p0RenderTickSignal] at h
    split_ifs at h
    simp_all

/-- Claim C10, witness: at cursor 2 (advanced cursor 3, not a multiple of
10) the displayed signal 0 stays even though the sample 1000 differs by far
more than 30; and at cursor 9 (advanced cursor 10) the redraw fires. -/
theorem signal_redraw_gate_witness :
    advanceX 2 % 10 ≠ 0 ∧
    p0RenderTickSignal 2 0 1000 = (advanceX 2, false, 0) ∧
    (p0RenderTickSignal 9 0 1000).2.1 = true ∧
    (advanceX 9 % 10 = 0 ∧ ((1000 : Int) - 0).natAbs > 30) :=
  ⟨by decide, (signal_redraw_gate 2 0 1000).1 (by decide),
   by decide, (signal_redraw_gate 9 0 1000).2 (by decide)⟩

/-- Claim C2, counterexample: `drawSignal()` of PulseSensor_CYD.ino redraws
the raw-signal field on any change at all — with last displayed value 100
and new sample 101 it redraws, although the difference is 1, far below the
30-unit threshold the claim states. -/
theorem ino_signal_threshold_counterexample :
    (drawSignal_ino_cache 100 101).1 = true ∧
    ((101 : Int) - 100).natAbs ≤ 30 := by
  decide

/-- Claim C2, amended: in both variants, the BPM and IBI fields redraw only
when the new value differs from the last rendered one — a second call with
an identical value redraws nothing and leaves the cache unchanged. The
>30-unit minimum-delta threshold for the raw-signal field exists only in
part_000, where any signal redraw implies the sample moved by more than 30
units; in PulseSensor_CYD.ino the signal field instead redraws exactly when
the new sample differs at all from the last displayed value. -/
theorem display_cache_redraw (v last s : Int) (x : Nat) :
    (drawBPM_ino_cache (drawBPM_ino_cache last v).2 v).1 = false ∧
    (drawIBI_ino_cache (drawIBI_ino_cache last v).2 v).1 = false ∧
    (p0LoopBPMCache (p0LoopBPMCache last v).2 v).1 = false ∧
    (p0LoopIBICache (p0LoopIBICache last v).2 v).1 = false ∧
    ((p0RenderTickSignal x last s).2.1 = true → (s - last).natAbs > 30) ∧
    ((drawSignal_ino_cache last s).1 = true ↔ s ≠ last) := by
  refine ⟨?_, ?_, ?_, ?_, ?_, ?_⟩
  · by_cases h : v = last <;> simp [drawBPM_ino_cache, h]
  · by_cases h : v = last <;> simp [drawIBI_ino_cache, h]
  · by_cases h : v = last <;> simp [p0LoopBPMCache, h]
  · by_cases h : v = last <;> simp [p0LoopIBICache, h]
  · intro h
    simp only [p0RenderTickSignal] at h
    split_ifs at h
    simp_all
  · simp only [drawSignal_ino_cache]; split_ifs <;> simp_all

/-- Claim C2, witness: the no-redraw-on-repeat facts at BPM 72 from cache 0,
and a part_000 signal redraw (cursor 9, advanced to 10; sample 1000 against
last displayed 0) whose delta indeed exceeds 30. -/
theorem display_cache_redraw_witness :
    (drawBPM_ino_cache (drawBPM_ino_cache 0 72).2 72).1 = false ∧
    (p0LoopBPMCache (p0LoopBPMCache 0 72).2 72).1 = false ∧
    (p0RenderTickSignal 9 0 1000).2.1 = true ∧
    ((1000 : Int) - 0).natAbs > 30 ∧
    ((drawSignal_ino_cache 0 1000).1 = true ↔ (1000 : Int) ≠ 0) :=
  ⟨(display_cache_redraw 72 0 1000 9).1,
   (display_cache_redraw 72 0 1000 9).2.2.1,
   by decide,
   (display_cache_redraw 72 0 1000 9).2.2.2.2.1 (by decide),
   (display_cache_redraw 72 0 1000 9).2.2.2.2.2⟩

/-- Claim C8, counterexample: the beat line PulseSensor_CYD.ino prints for
a beat with signal 2048, bpm 72, ibi 833 is the human-readable
`BPM: 72 | IBI: 833`, not the `signal,bpm,ibi,1` status record the claim
requires for that beat. -/
theorem ino_beat_record_counterexample :
    inoLoopSerial true 72 833 = ["BPM: 72 | IBI: 833"] ∧
    inoBeatLine 72 833 ≠ spec_statusRecord 2048 72 833 := by
  refine ⟨rfl, ?_⟩
  decide

/-- Claim C8, amended: part_000's loop emits exactly one line-oriented
status record per detected beat — the record matches the documented
`signal,bpm,ibi,1` shape and carries that tick's signal, BPM and IBI — and
emits no such record on ticks without a beat; the PulseSensor_CYD.ino
variant also emits exactly one line per beat and none otherwise, but in the
human-readable `BPM: <bpm> | IBI: <ibi>` form instead. -/
theorem beat_record_per_beat (signal bpm ibi : Int) :
    p0LoopSerial true signal bpm ibi = [spec_statusRecord signal bpm ibi] ∧
    (p0LoopSerial true signal bpm ibi).length = 1 ∧
    p0LoopSerial false signal bpm ibi = [] ∧
    inoLoopSerial true bpm ibi = [inoBeatLine bpm ibi] ∧
    (inoLoopSerial true bpm ibi).length = 1 ∧
    inoLoopSerial false bpm ibi = [] := by
  refine ⟨?_, rfl, rfl, rfl, rfl, rfl⟩
  simp only [p0LoopSerial, p0BeatLine, spec_statusRecord, if_true, List.cons.injEq, and_true]
  have h1 : toString (1 : Int) = "1" := rfl
  have h2 : ∀ a : String, a ++ "," ++ "1" = a ++ ",1" := fun a => by
    rw [String.append_assoc]
    rfl
  rw [h1, h2]
